import Mathlib

/-!
Verification of the SOCKS5 worker core (`src/socks/mod.rs`).

The development shallowly embeds the two worker state machines of the
repository: the stream worker (`StreamWorker`) and the datagram worker
(`DatagramWorker`), together with their background read loops.

The background loops are embedded as step functions over an explicit loop
state, driven by a list of events.  An event records what the blocking
read/receive call returned on one iteration (`Ok(size)` or `Err(kind)`),
together with the result the shared sink would return for the forwarding
call of that iteration; for the datagram loop an event may also be a
`set_src_port` call performed concurrently by the owning thread, since the
loop reads the shared atomic port fresh on every forward.  The loop state
carries, besides the mutable locals of the Rust loop (`zero`, the shared
`closed` flag, the shared `src_port`), two ghost traces: the list of
forwarding calls issued to the sink and the list of sleeps performed, so
that the observable behaviour of the loop can be stated.

In this sequential embedding the loop has exited exactly when `closed` is
true: every `break` in the source either follows a store of `true` to the
shared flag or is guarded by observing the flag already true.
-/

/-- Constant `TIMEDOUT_WAIT` of the source: the wait in milliseconds after a
`TimedOut` I/O error. -/
def TIMEDOUT_WAIT : Nat := 20

/-- Constant `ZEROES_BEFORE_CLOSE` of the source: the number of zero-byte
reads after which the stream worker closes itself. -/
def ZEROES_BEFORE_CLOSE : Nat := 3

/-- Model of `std::net::SocketAddrV4`: an IPv4 address and a port, both kept
as plain naturals since the claims never compute with them. -/
structure SocketAddrV4 where
  ip : Nat
  port : Nat
deriving DecidableEq, Repr

/-- Model of `std::io::ErrorKind` as the loops use it: the only kind the code
distinguishes is `TimedOut`; every other kind is carried as an opaque code. -/
inductive IoErrorKind where
  | timedOut
  | other (code : Nat)
deriving DecidableEq, Repr

/-- One iteration of input to the stream worker's background loop: either
`stream_cloned.read(&mut buffer)` returned `Ok(size)` — with `fwdOk` the
result `forward_tcp` returns if the loop calls it on this iteration — or the
read returned `Err` of the given kind. -/
inductive StreamEvent where
  | readOk (size : Nat) (fwdOk : Bool)
  | readErr (kind : IoErrorKind)
deriving DecidableEq, Repr

/-- State of the stream worker's background loop: the local `zero` counter,
the shared `closed` flag, and two ghost traces — `forwards` records one entry
(payload size, sink result) per `forward_tcp` call, `slept` records each
sleep duration in milliseconds. -/
structure StreamLoopState where
  zero : Nat
  closed : Bool
  forwards : List (Nat × Bool)
  slept : List Nat
deriving DecidableEq, Repr

/-- Loop state at thread spawn in `StreamWorker::connect`: `zero = 0` and the
freshly created `closed` flag is false. -/
def streamInit : StreamLoopState :=
  { zero := 0, closed := false, forwards := [], slept := [] }

/-- One iteration of the background loop in `StreamWorker::connect`
(src lines 52-102), translated clause by clause:
if `closed` is observed true the loop has exited and the state is final;
on `Ok(size)` with `size == 0` the counter is incremented and, when it
reaches `ZEROES_BEFORE_CLOSE`, the loop stores `true` to `closed` and breaks
without forwarding; otherwise (including a below-threshold zero read, since
the source falls through) `forward_tcp` is called with `&buffer[..size]` and
its failure is only logged; on `Err` of kind `TimedOut` the loop sleeps
`TIMEDOUT_WAIT` ms and retries; on any other `Err` it stores `true` to
`closed` and breaks.  Note the source never resets `zero` on a positive
read. -/
def streamStep (st : StreamLoopState) (ev : StreamEvent) : StreamLoopState :=
  if st.closed then st
  else
    match ev with
    | .readOk size fwdOk =>
        if size = 0 then
          let z := st.zero + 1
          if ZEROES_BEFORE_CLOSE ≤ z then
            { st with zero := z, closed := true }
          else
            { st with zero := z, forwards := st.forwards ++ [(size, fwdOk)] }
        else
          { st with forwards := st.forwards ++ [(size, fwdOk)] }
    | .readErr kind =>
        match kind with
        | .timedOut => { st with slept := st.slept ++ [TIMEDOUT_WAIT] }
        | .other _ => { st with closed := true }

/-- The stream worker's background loop run over a list of read events. -/
def streamRun (st : StreamLoopState) (evs : List StreamEvent) : StreamLoopState :=
  evs.foldl streamStep st

/-- The read-event sequence of the echo scenario: the proxy echoes 10 bytes,
then only zero-length reads follow. -/
def echoEvents : List StreamEvent :=
  [.readOk 10 true, .readOk 0 true, .readOk 0 true, .readOk 0 true]

/-- Owner-side state of a `StreamWorker` (src lines 28-33): the destination
and the shared `closed` flag; the socket handle and the thread handle carry
no state the claims mention. -/
structure StreamWorker where
  dst : SocketAddrV4
  closed : Bool
deriving DecidableEq, Repr

/-- `StreamWorker::connect` (src lines 37-113), abstracting the collaborator:
`connectRes` is the result of `socks::connect`; on success the worker is
returned with a freshly created `closed` flag holding false. -/
def StreamWorker.connect (dst : SocketAddrV4) (connectRes : Except IoErrorKind Unit) :
    Except IoErrorKind StreamWorker :=
  match connectRes with
  | .error e => .error e
  | .ok _ => .ok { dst := dst, closed := false }

/-- `StreamWorker::send` (src lines 116-127): writes the buffer on the
caller's thread and propagates the write result; it touches no worker
state.  `writeRes` is the result of `write_all`. -/
def StreamWorker.send (w : StreamWorker) (writeRes : Except IoErrorKind Unit) :
    StreamWorker × Except IoErrorKind Unit :=
  (w, writeRes)

/-- `StreamWorker::close` (src lines 130-133): stores `true` to the shared
`closed` flag. -/
def StreamWorker.close (w : StreamWorker) : StreamWorker :=
  { w with closed := true }

/-- `StreamWorker::is_closed` (src lines 136-138): loads the flag. -/
def StreamWorker.is_closed (w : StreamWorker) : Bool :=
  w.closed

/-- The public operations `impl StreamWorker` exposes on an existing worker:
`send`, `close`, `is_closed`. -/
inductive StreamOp where
  | send (writeRes : Except IoErrorKind Unit)
  | close
  | isClosed
deriving Repr

/-- Effect of one public stream-worker operation on the worker state. -/
def StreamWorker.applyOp (w : StreamWorker) (op : StreamOp) : StreamWorker :=
  match op with
  | .send r => (w.send r).1
  | .close => w.close
  | .isClosed => w

/-- The three actions of `Drop for StreamWorker`, in source order. -/
inductive TeardownStep where
  | setClosed
  | shutdownBoth
  | joinThread
deriving DecidableEq, Repr

/-- `Drop for StreamWorker` (src lines 141-152): calls `close`, then
`stream.shutdown(Shutdown::Both)` — whose failure is only logged — then
joins the background thread.  `shutdownRes` is the shutdown result; the
returned list is the sequence of teardown actions performed. -/
def StreamWorker.drop (w : StreamWorker) (shutdownRes : Except IoErrorKind Unit) :
    StreamWorker × List TeardownStep :=
  let w2 := w.close
  match shutdownRes with
  | .error _ => (w2, [.setClosed, .shutdownBoth, .joinThread])
  | .ok _ => (w2, [.setClosed, .shutdownBoth, .joinThread])

/-- Owner-side state of a `DatagramWorker` (src lines 155-162): the shared
atomic `src_port`, the local port, and the shared `closed` flag. -/
structure DatagramWorker where
  src_port : Nat
  local_port : Nat
  closed : Bool
deriving DecidableEq, Repr

/-- `DatagramWorker::bind` (src lines 166-236), abstracting the collaborator:
`bindRes` is the result of `SocksDatagram::bind`; on success the worker is
returned with `src_port` stored in an `AtomicU16` (hence reduced mod 2^16)
and a freshly created `closed` flag holding false. -/
def DatagramWorker.bind (src_port local_port : Nat) (bindRes : Except IoErrorKind Unit) :
    Except IoErrorKind DatagramWorker :=
  match bindRes with
  | .error e => .error e
  | .ok _ =>
      .ok { src_port := src_port % 65536, local_port := local_port % 65536, closed := false }

/-- `DatagramWorker::send_to` (src lines 239-250): sends one datagram on the
caller's thread and returns the byte count or the error; it touches no
worker state.  `sendRes` is the result of the underlying `send_to`. -/
def DatagramWorker.send_to (w : DatagramWorker) (sendRes : Except IoErrorKind Nat) :
    DatagramWorker × Except IoErrorKind Nat :=
  (w, sendRes)

/-- `DatagramWorker::set_src_port` (src lines 253-256): stores the new port
into the shared `AtomicU16` (values are 16-bit, modelled by mod 2^16). -/
def DatagramWorker.set_src_port (w : DatagramWorker) (src_port : Nat) : DatagramWorker :=
  { w with src_port := src_port % 65536 }

/-- `DatagramWorker::get_src_port` (src lines 259-261): loads the shared
port. -/
def DatagramWorker.get_src_port (w : DatagramWorker) : Nat :=
  w.src_port

/-- `DatagramWorker::is_closed` (src lines 264-266): loads the flag. -/
def DatagramWorker.is_closed (w : DatagramWorker) : Bool :=
  w.closed

/-- The public operations `impl DatagramWorker` exposes on an existing worker
(src lines 239-266): `send_to`, `set_src_port`, `get_src_port`, `is_closed`.
The impl block defines no `close` method. -/
inductive DatagramOp where
  | sendTo (sendRes : Except IoErrorKind Nat)
  | setSrcPort (p : Nat)
  | getSrcPort
  | isClosed
deriving Repr

/-- Effect of one public datagram-worker operation on the worker state. -/
def DatagramWorker.applyOp (w : DatagramWorker) (op : DatagramOp) : DatagramWorker :=
  match op with
  | .sendTo r => (w.send_to r).1
  | .setSrcPort p => w.set_src_port p
  | .getSrcPort => w
  | .isClosed => w

/-- One iteration of input to the datagram worker's background loop: either
`recv_from` returned `Ok((size, addr))` — with `fwdOk` the result
`forward_udp` returns if called — or it returned `Err` of the given kind, or
the owning thread interleaved a `set_src_port(p)` store to the shared
atomic. -/
inductive DgEvent where
  | recvOk (size : Nat) (addr : SocketAddrV4) (fwdOk : Bool)
  | recvErr (kind : IoErrorKind)
  | setPort (p : Nat)
deriving DecidableEq, Repr

/-- State of the datagram worker's background loop: the shared `src_port`,
the shared `closed` flag, and the ghost traces.  Each `forwards` entry
records one `forward_udp` call as (peer address, source port loaded at
forward time, payload size, sink result). -/
structure DgLoopState where
  src_port : Nat
  closed : Bool
  forwards : List (SocketAddrV4 × Nat × Nat × Bool)
  slept : List Nat
deriving DecidableEq, Repr

/-- Loop state at thread spawn in `DatagramWorker::bind`. -/
def dgInit (src_port : Nat) : DgLoopState :=
  { src_port := src_port % 65536, closed := false, forwards := [], slept := [] }

/-- One iteration of the background loop in `DatagramWorker::bind`
(src lines 184-224), translated clause by clause: a `setPort` event is the
owning thread's store to the shared atomic and is not gated by the loop;
if `closed` is observed true the loop has exited; on `Ok((size, addr))` the
loop calls `forward_udp(addr, src_port loaded now, &buffer[..size])` and
only logs its failure; on `Err` of kind `TimedOut` it sleeps `TIMEDOUT_WAIT`
ms and retries; on any other `Err` it stores `true` to `closed` and
breaks. -/
def dgStep (st : DgLoopState) (ev : DgEvent) : DgLoopState :=
  match ev with
  | .setPort p => { st with src_port := p % 65536 }
  | .recvOk size addr fwdOk =>
      if st.closed then st
      else { st with forwards := st.forwards ++ [(addr, st.src_port, size, fwdOk)] }
  | .recvErr kind =>
      if st.closed then st
      else
        match kind with
        | .timedOut => { st with slept := st.slept ++ [TIMEDOUT_WAIT] }
        | .other _ => { st with closed := true }

/-- The datagram worker's background loop run over a list of events. -/
def dgRun (st : DgLoopState) (evs : List DgEvent) : DgLoopState :=
  evs.foldl dgStep st

/-- Claim C1 (code_bug evidence).  The claim states that a positive-length
read resets the consecutive-zero-read counter, so a sequence with fewer than
3 consecutive zero reads never closes the worker.  In the source the counter
is never reset: after reads of sizes [0, 0, 5] it is 2, not 0, and the
sequence [0, 0, 5, 0] — whose longest run of consecutive zero reads is 2 —
closes the worker. -/
theorem C1_zero_counter_not_reset :
    (streamRun streamInit [.readOk 0 true, .readOk 0 true, .readOk 5 true]).zero = 2 ∧
    (streamRun streamInit [.readOk 0 true, .readOk 0 true, .readOk 5 true]).closed = false ∧
    (streamRun streamInit
      [.readOk 0 true, .readOk 0 true, .readOk 5 true, .readOk 0 true]).closed = true := by
  refine ⟨?_, ?_, ?_⟩ <;> rfl

/-- Claim C2 (counterexample).  The claim states the loop forwards only reads
of size strictly greater than 0, so the echo scenario produces exactly one
forwarded call.  In the source a below-threshold zero-length read falls
through to the forwarding call, so the echo scenario produces three
forwarding calls (sizes 10, 0, 0), not one. -/
theorem C2_counterexample :
    (streamRun streamInit echoEvents).forwards.map Prod.fst = [10, 0, 0] ∧
    ¬ (streamRun streamInit echoEvents).forwards.length = 1 := by
  refine ⟨rfl, ?_⟩
  decide

/-- Claim C2 (amended).  The loop issues a forwarding call on every
successful read that does not trigger the zero-threshold close: a
positive-length read always forwards, and a zero-length read whose
incremented counter is still below `ZEROES_BEFORE_CLOSE` forwards an empty
payload; in the echo scenario three forwarding calls occur — one of 10 bytes
followed by two empty ones — and then the worker closes. -/
theorem C2_forward_on_every_read (st : StreamLoopState) (size : Nat) (f : Bool)
    (h : st.closed = false) (hsize : 0 < size) :
    (streamStep st (.readOk size f)).forwards = st.forwards ++ [(size, f)] ∧
    (st.zero + 1 < ZEROES_BEFORE_CLOSE →
      (streamStep st (.readOk 0 f)).forwards = st.forwards ++ [(0, f)]) ∧
    (streamRun streamInit echoEvents).forwards = [(10, true), (0, true), (0, true)] ∧
    (streamRun streamInit echoEvents).closed = true := by
  refine ⟨?_, ?_, rfl, rfl⟩
  · simp [streamStep, h, Nat.pos_iff_ne_zero.mp hsize]
  · intro hz
    simp [streamStep, h, Nat.not_le.mpr hz]

/-- Witness for `C2_forward_on_every_read` at `streamInit` and a 10-byte
read. -/
theorem C2_forward_on_every_read_witness :
    streamInit.closed = false ∧ 0 < 10 ∧
    ((streamStep streamInit (.readOk 10 true)).forwards
        = streamInit.forwards ++ [(10, true)] ∧
      (streamInit.zero + 1 < ZEROES_BEFORE_CLOSE →
        (streamStep streamInit (.readOk 0 true)).forwards
          = streamInit.forwards ++ [(0, true)]) ∧
      (streamRun streamInit echoEvents).forwards = [(10, true), (0, true), (0, true)] ∧
      (streamRun streamInit echoEvents).closed = true) :=
  ⟨rfl, by decide, C2_forward_on_every_read streamInit 10 true rfl (by decide)⟩

/-- Claim C3 (counterexample).  The claim states both worker kinds expose a
`close()` operation that sets the closed flag; the datagram worker's public
surface (`send_to`, `set_src_port`, `get_src_port`, `is_closed`) contains no
operation that makes `is_closed` true on a freshly bound worker. -/
theorem C3_counterexample :
    ¬ ∃ op : DatagramOp,
      (DatagramWorker.applyOp
        { src_port := 0, local_port := 0, closed := false } op).is_closed = true := by
  rintro ⟨op, h⟩
  cases op <;> simp [DatagramWorker.applyOp, DatagramWorker.is_closed,
    DatagramWorker.send_to, DatagramWorker.set_src_port] at h

/-- Claim C3 (amended).  Only the stream worker exposes `close()`: it sets
the closed flag to true, so `is_closed` returns true afterwards, and it is
idempotent; the datagram worker exposes no close operation, and none of its
public operations changes the closed flag. -/
theorem C3_close_semantics :
    (∀ w : StreamWorker, w.close.is_closed = true) ∧
    (∀ w : StreamWorker, w.close.close = w.close) ∧
    (∀ (w : DatagramWorker) (op : DatagramOp), (w.applyOp op).closed = w.closed) := by
  refine ⟨fun w => rfl, fun w => rfl, fun w op => ?_⟩
  cases op <;> rfl

/-- Claim C4 (confirmed).  The datagram loop tags each forwarded datagram
with the value of `src_port` loaded at forward time: if `set_src_port(p)`
lands between two received datagrams, the first forwarding call carries the
old port and the second carries `p`. -/
theorem C4_fresh_src_port (st : DgLoopState) (s1 s2 : Nat) (a1 a2 : SocketAddrV4)
    (f1 f2 : Bool) (p : Nat) (h : st.closed = false) (hp : p < 65536) :
    (dgRun st [.recvOk s1 a1 f1, .setPort p, .recvOk s2 a2 f2]).forwards
      = st.forwards ++ [(a1, st.src_port, s1, f1), (a2, p, s2, f2)] := by
  simp [dgRun, dgStep, h, Nat.mod_eq_of_lt hp]

/-- Witness for `C4_fresh_src_port`: starting from `dgInit 1000`, receiving
a 4-byte datagram, rebinding to port 2000 and receiving a 6-byte datagram
yields forwards tagged 1000 then 2000. -/
theorem C4_fresh_src_port_witness :
    (dgInit 1000).closed = false ∧ 2000 < 65536 ∧
    (dgRun (dgInit 1000)
        [.recvOk 4 ⟨1, 80⟩ true, .setPort 2000, .recvOk 6 ⟨2, 443⟩ true]).forwards
      = (dgInit 1000).forwards
          ++ [(⟨1, 80⟩, (dgInit 1000).src_port, 4, true), (⟨2, 443⟩, 2000, 6, true)] :=
  ⟨rfl, by decide, C4_fresh_src_port (dgInit 1000) 4 6 ⟨1, 80⟩ ⟨2, 443⟩ true true 2000
    rfl (by decide)⟩

/-- Claim C5 (confirmed).  From any state in which the loop is still
running, three consecutive zero-length reads — with no intervening
positive-length read or read error — leave the closed flag true, with no
read error required: the counter only grows, so after three more increments
it is at least `ZEROES_BEFORE_CLOSE`. -/
theorem C5_three_zero_reads_close (st : StreamLoopState) (f1 f2 f3 : Bool)
    (h : st.closed = false) :
    (streamRun st [.readOk 0 f1, .readOk 0 f2, .readOk 0 f3]).closed = true := by
  obtain ⟨z, c, fw, sl⟩ := st
  replace h : c = false := h
  subst h
  rcases z with _ | _ | n
  · rfl
  · rfl
  · have h1 : ZEROES_BEFORE_CLOSE ≤ n + 1 + 1 + 1 := by
      simp only [ZEROES_BEFORE_CLOSE]
      omega
    simp [streamRun, streamStep, h1]

/-- Witness for `C5_three_zero_reads_close` at `streamInit`. -/
theorem C5_three_zero_reads_close_witness :
    streamInit.closed = false ∧
    (streamRun streamInit [.readOk 0 true, .readOk 0 true, .readOk 0 true]).closed = true :=
  ⟨rfl, C5_three_zero_reads_close streamInit true true true rfl⟩

/-- Claim C6 (confirmed).  In both background loops a `TimedOut` read error
leaves the closed flag false and only appends one `TIMEDOUT_WAIT`-millisecond
sleep — the loop retries — while an error of any other kind sets the closed
flag to true. -/
theorem C6_error_kinds (stS : StreamLoopState) (stD : DgLoopState) (c : Nat)
    (hS : stS.closed = false) (hD : stD.closed = false) :
    (streamStep stS (.readErr .timedOut)).closed = false ∧
    (streamStep stS (.readErr .timedOut)).slept = stS.slept ++ [TIMEDOUT_WAIT] ∧
    (streamStep stS (.readErr .timedOut)).forwards = stS.forwards ∧
    (streamStep stS (.readErr (.other c))).closed = true ∧
    (dgStep stD (.recvErr .timedOut)).closed = false ∧
    (dgStep stD (.recvErr .timedOut)).slept = stD.slept ++ [TIMEDOUT_WAIT] ∧
    (dgStep stD (.recvErr .timedOut)).forwards = stD.forwards ∧
    (dgStep stD (.recvErr (.other c))).closed = true := by
  simp [streamStep, dgStep, hS, hD]

/-- Witness for `C6_error_kinds` at the initial loop states with error code
1. -/
theorem C6_error_kinds_witness :
    streamInit.closed = false ∧ (dgInit 0).closed = false ∧
    ((streamStep streamInit (.readErr .timedOut)).closed = false ∧
      (streamStep streamInit (.readErr .timedOut)).slept
        = streamInit.slept ++ [TIMEDOUT_WAIT] ∧
      (streamStep streamInit (.readErr .timedOut)).forwards = streamInit.forwards ∧
      (streamStep streamInit (.readErr (.other 1))).closed = true ∧
      (dgStep (dgInit 0) (.recvErr .timedOut)).closed = false ∧
      (dgStep (dgInit 0) (.recvErr .timedOut)).slept
        = (dgInit 0).slept ++ [TIMEDOUT_WAIT] ∧
      (dgStep (dgInit 0) (.recvErr .timedOut)).forwards = (dgInit 0).forwards ∧
      (dgStep (dgInit 0) (.recvErr (.other 1))).closed = true) :=
  ⟨rfl, rfl, C6_error_kinds streamInit (dgInit 0) 1 rfl rfl⟩

/-- Claim C7 (confirmed).  A failed forwarding call is non-fatal in both
loops: on an iteration whose read succeeds and does not trigger the
zero-threshold close, the closed flag stays false whether the sink accepts
or rejects the payload, and the resulting loop states differ at most in the
recorded sink result. -/
theorem C7_forward_failure_nonfatal (stS : StreamLoopState) (stD : DgLoopState)
    (size s : Nat) (a : SocketAddrV4)
    (hS : stS.closed = false) (hD : stD.closed = false)
    (hth : ¬ (size = 0 ∧ ZEROES_BEFORE_CLOSE ≤ stS.zero + 1)) :
    (streamStep stS (.readOk size false)).closed = false ∧
    (streamStep stS (.readOk size false)).closed
      = (streamStep stS (.readOk size true)).closed ∧
    (streamStep stS (.readOk size false)).zero
      = (streamStep stS (.readOk size true)).zero ∧
    (dgStep stD (.recvOk s a false)).closed = false ∧
    (dgStep stD (.recvOk s a false)).closed = (dgStep stD (.recvOk s a true)).closed := by
  by_cases hz : size = 0
  · subst hz
    have hlt : ¬ ZEROES_BEFORE_CLOSE ≤ stS.zero + 1 := fun hc => hth ⟨rfl, hc⟩
    simp [streamStep, dgStep, hS, hD, hlt]
  · simp [streamStep, dgStep, hS, hD, hz]

/-- Witness for `C7_forward_failure_nonfatal`: a rejected 10-byte stream
payload and a rejected 4-byte datagram leave both loops running. -/
theorem C7_forward_failure_nonfatal_witness :
    streamInit.closed = false ∧ (dgInit 0).closed = false ∧
    ¬ ((10 : Nat) = 0 ∧ ZEROES_BEFORE_CLOSE ≤ streamInit.zero + 1) ∧
    ((streamStep streamInit (.readOk 10 false)).closed = false ∧
      (streamStep streamInit (.readOk 10 false)).closed
        = (streamStep streamInit (.readOk 10 true)).closed ∧
      (streamStep streamInit (.readOk 10 false)).zero
        = (streamStep streamInit (.readOk 10 true)).zero ∧
      (dgStep (dgInit 0) (.recvOk 4 ⟨1, 80⟩ false)).closed = false ∧
      (dgStep (dgInit 0) (.recvOk 4 ⟨1, 80⟩ false)).closed
        = (dgStep (dgInit 0) (.recvOk 4 ⟨1, 80⟩ true)).closed) :=
  ⟨rfl, rfl, by decide,
    C7_forward_failure_nonfatal streamInit (dgInit 0) 10 4 ⟨1, 80⟩ rfl rfl (by decide)⟩

/-- Claim C8 (confirmed).  Both constructors return a worker whose
`is_closed` is false, and the closed flag is monotone: no public operation
and no background-loop step of either worker turns a true flag back to
false. -/
theorem C8_closed_monotone :
    (∀ (dst : SocketAddrV4) (w : StreamWorker),
      StreamWorker.connect dst (.ok ()) = .ok w → w.is_closed = false) ∧
    (∀ (sp lp : Nat) (w : DatagramWorker),
      DatagramWorker.bind sp lp (.ok ()) = .ok w → w.is_closed = false) ∧
    (∀ (w : StreamWorker) (op : StreamOp), w.closed = true → (w.applyOp op).closed = true) ∧
    (∀ (w : DatagramWorker) (op : DatagramOp),
      w.closed = true → (w.applyOp op).closed = true) ∧
    (∀ (st : StreamLoopState) (ev : StreamEvent),
      st.closed = true → (streamStep st ev).closed = true) ∧
    (∀ (st : DgLoopState) (ev : DgEvent),
      st.closed = true → (dgStep st ev).closed = true) := by
  refine ⟨?_, ?_, ?_, ?_, ?_, ?_⟩
  · intro dst w hw
    cases hw
    rfl
  · intro sp lp w hw
    cases hw
    rfl
  · intro w op h
    cases op <;> simp [StreamWorker.applyOp, StreamWorker.close, StreamWorker.send, h]
  · intro w op h
    cases op <;> simp [DatagramWorker.applyOp, DatagramWorker.set_src_port,
      DatagramWorker.send_to, h]
  · intro st ev h
    simp [streamStep, h]
  · intro st ev h
    cases ev <;> simp [dgStep, h]

/-- Witness for `C8_closed_monotone`: a freshly connected stream worker and
a freshly bound datagram worker are open, and a closed loop state stays
closed across a step. -/
theorem C8_closed_monotone_witness :
    (StreamWorker.connect ⟨1, 80⟩ (.ok ()) = .ok { dst := ⟨1, 80⟩, closed := false } →
      ({ dst := ⟨1, 80⟩, closed := false } : StreamWorker).is_closed = false) ∧
    (({ zero := 0, closed := true, forwards := [], slept := [] } :
        StreamLoopState).closed = true →
      (streamStep { zero := 0, closed := true, forwards := [], slept := [] }
        (.readOk 5 true)).closed = true) :=
  ⟨C8_closed_monotone.1 ⟨1, 80⟩ { dst := ⟨1, 80⟩, closed := false },
    C8_closed_monotone.2.2.2.2.1
      { zero := 0, closed := true, forwards := [], slept := [] } (.readOk 5 true)⟩

/-- Claim C9 (confirmed).  Stream-worker teardown performs, in order:
store true to the closed flag, shut down both directions, join the
background thread; the action sequence and the final worker state are the
same whether the shutdown succeeds or fails, so a shutdown failure is
swallowed and the join still happens. -/
theorem C9_teardown_order (w : StreamWorker) (e : IoErrorKind) :
    (w.drop (.error e)).2 = [.setClosed, .shutdownBoth, .joinThread] ∧
    (w.drop (.ok ())).2 = [.setClosed, .shutdownBoth, .joinThread] ∧
    (w.drop (.error e)).1.is_closed = true ∧
    (w.drop (.error e)).1 = (w.drop (.ok ())).1 := by
  simp [StreamWorker.drop, StreamWorker.close, StreamWorker.is_closed]

/-- Claim C10 (confirmed).  For every 16-bit port `p`, `set_src_port p`
followed by `get_src_port` returns exactly `p`. -/
theorem C10_set_get_src_port (w : DatagramWorker) (p : Nat) (hp : p < 65536) :
    (w.set_src_port p).get_src_port = p := by
  simp [DatagramWorker.set_src_port, DatagramWorker.get_src_port, Nat.mod_eq_of_lt hp]

/-- Witness for `C10_set_get_src_port` at port 1234. -/
theorem C10_set_get_src_port_witness :
    1234 < 65536 ∧
    (({ src_port := 0, local_port := 0, closed := false } :
        DatagramWorker).set_src_port 1234).get_src_port = 1234 :=
  ⟨by decide, C10_set_get_src_port
    { src_port := 0, local_port := 0, closed := false } 1234 (by decide)⟩
